import Mathlib

/-!
# Verification of the dual-arm teleoperation / vision-grasp controller

Shallow embedding of the control-mode state machine, speed-adjustment
handlers, grasp-pose calculation, pose-preset executor, grasp orchestrator,
velocity synthesizer and depth sampling of the `moon_exp` repository
(`main_controller.py`, `ui.py`, `vision_interaction.py`, `robot_control.py`,
`camera/orbbec_camera.py`), together with theorems settling the spec claims.

Numeric convention: Python floats are modelled as rationals (`ℚ`) where the
code only performs ring operations and comparisons, and as reals (`ℝ`) where
trigonometric rotation matrices are involved.
-/

namespace MoonExp

/-! ## Control modes (config.py: MODE_XYZ / MODE_RPY / MODE_RESET / MODE_VISION)

The spec names them CartesianJog / OrientationJog / PosePreset / VisionGuided.
`DualArmController.__init__` builds
`control_modes = [MODE_XYZ, MODE_RPY, MODE_RESET, MODE_VISION]`. -/

inductive ControlMode where
  | xyz    -- MODE_XYZ, spec: CartesianJog
  | rpy    -- MODE_RPY, spec: OrientationJog
  | reset  -- MODE_RESET, spec: PosePreset
  | vision -- MODE_VISION, spec: VisionGuided
  deriving DecidableEq, Repr

/-- `self.control_modes` from `DualArmController.__init__`. -/
def control_modes : List ControlMode := [.xyz, .rpy, .reset, .vision]

/-- `switch_control_mode`: `self.current_mode_index = (self.current_mode_index + 1) % len(self.control_modes)`. -/
def switch_mode_index (i : ℕ) : ℕ := (i + 1) % control_modes.length

/-- `self.control_mode = self.control_modes[self.current_mode_index]`. -/
def modeAt (i : ℕ) : ControlMode := control_modes.getD i .xyz

/-- Index of a mode in `control_modes`. -/
def modeIndex : ControlMode → ℕ
  | .xyz => 0
  | .rpy => 1
  | .reset => 2
  | .vision => 3

/-- The mode reached by one press of the mode-switch control. -/
def nextMode (m : ControlMode) : ControlMode := modeAt (switch_mode_index (modeIndex m))

/-! ## Speed adjustment (ui.py, UIManager.handle_events, speed inc/dec branches) -/

/-- The two per-arm jog speeds mutated by the speed buttons
(`self.controller.current_speed_xy`, `self.controller.current_speed_z`). -/
structure SpeedState where
  xy : ℚ
  z : ℚ
  deriving DecidableEq, Repr

inductive SpeedEvent where
  | inc  -- speed_increase button pressed (in XYZ/RPY mode)
  | dec  -- speed_decrease button pressed (in XYZ/RPY mode)
  deriving DecidableEq, Repr

/-- The speed-button handler from `UIManager.handle_events`:
increase clamps with `min(max_speed, v + speed_increment)`,
decrease clamps with `max(min_speed, v - speed_increment)`,
applied to both the xy speed and the z speed. -/
def handleSpeedEvent (minS maxS incr : ℚ) : SpeedEvent → SpeedState → SpeedState
  | .inc, s => ⟨min maxS (s.xy + incr), min maxS (s.z + incr)⟩
  | .dec, s => ⟨max minS (s.xy - incr), max minS (s.z - incr)⟩

/-- A sequence of speed-button presses. -/
def runSpeedEvents (minS maxS incr : ℚ) (evs : List SpeedEvent) (s : SpeedState) : SpeedState :=
  evs.foldl (fun st e => handleSpeedEvent minS maxS incr e st) s

/-! ## Grasp-pose calculation (vision_interaction.py, calculate_grasp_poses) -/

/-- `PRE_GRASP_OFFSET_Z_MM = 100.0` (vision_interaction.py line 83). -/
def PRE_GRASP_OFFSET_Z_MM : ℚ := 100

/-- `POST_GRASP_LIFT_Z_MM = 50.0` (vision_interaction.py line 84). -/
def POST_GRASP_LIFT_Z_MM : ℚ := 50

/-- `DEFAULT_LEFT_GRASP_RPY = [180.0, 0.0, 180.0]`. -/
def DEFAULT_LEFT_GRASP_RPY : List ℚ := [180, 0, 180]

/-- `DEFAULT_RIGHT_GRASP_RPY = [180.0, 0.0, 0.0]`. -/
def DEFAULT_RIGHT_GRASP_RPY : List ℚ := [180, 0, 0]

/-- Python's `%` for a positive modulus: result carries the sign of the divisor. -/
def pymod (x y : ℚ) : ℚ := x - y * ⌊x / y⌋

/-- `calculate_grasp_poses(object_base_coordinates_mm, arm_to_use, object_orientation_rpy_deg)`:
chooses the per-arm default grasp RPY, optionally yaw-rotates it by the object
orientation (mod 360), then offsets the grasp z by `PRE_GRASP_OFFSET_Z_MM`
for the pre-grasp pose and by `POST_GRASP_LIFT_Z_MM` for the post-grasp pose.
Returns `(pre_grasp_pose, grasp_pose, post_grasp_pose)`. -/
def graspRpy (arm : String) (objRpy : Option (List ℚ)) : List ℚ :=
  let grasp_rpy0 := if arm = "left" then DEFAULT_LEFT_GRASP_RPY else DEFAULT_RIGHT_GRASP_RPY
  match objRpy with
  | some o =>
      if o.length = 3 then
        [grasp_rpy0.getD 0 0, grasp_rpy0.getD 1 0, pymod (grasp_rpy0.getD 2 0 + o.getD 2 0) 360]
      else grasp_rpy0
  | none => grasp_rpy0

def calculate_grasp_poses (coords : List ℚ) (arm : String) (objRpy : Option (List ℚ)) :
    List ℚ × List ℚ × List ℚ :=
  let grasp_rpy := graspRpy arm objRpy
  let gp := coords ++ grasp_rpy
  let pre := gp.set 2 (gp.getD 2 0 + PRE_GRASP_OFFSET_Z_MM)
  let post := gp.set 2 (gp.getD 2 0 + POST_GRASP_LIFT_Z_MM)
  (pre, gp, post)

theorem graspRpy_length (arm : String) (objRpy : Option (List ℚ)) :
    (graspRpy arm objRpy).length = 3 := by
  unfold graspRpy DEFAULT_LEFT_GRASP_RPY DEFAULT_RIGHT_GRASP_RPY
  rcases objRpy with _ | o <;> split <;> (try split) <;> (try split) <;> simp

/-! ## Pose-preset executor (robot_control.py, attempt_reset_arm) -/

/-- Modelled from the spec: `desire_left_pose` / `desire_right_pose` live in
`CPS.py`, which is not among the sources.  The spec says the executor
"build[s] a target pose by keeping the current translation and substituting
the requested orientation", so the desired-pose function is modelled as
returning the requested RPY unchanged. -/
def desire_pose (rpy : List ℚ) : List ℚ := rpy

/-- `attempt_reset_arm(controller, arm_name, target_rpy, reset_speed, ...)`:
reads `controller.getTCPPose()` (modelled by `currentPose`; `none` is a failed
read), computes `rpy_angles = desire_pose_func(rpy_array=target_rpy)`,
builds `target_pose = list(current_pose); target_pose[3:6] = rpy_angles`,
then issues exactly one blocking move whose success (`moveOk`) becomes the
return value.  Result: `(success, list of issued move targets)`. -/
def attempt_reset_arm (currentPose : Option (List ℚ)) (target_rpy : List ℚ) (moveOk : Bool) :
    Bool × List (List ℚ) :=
  match currentPose with
  | none => (false, [])
  | some cp =>
      let rpy_angles := desire_pose target_rpy
      let target_pose := cp.take 3 ++ rpy_angles ++ cp.drop 6
      (moveOk, [target_pose])

/-! ## Grasp orchestration (vision_interaction.py) -/

/-- `MAX_OBSERVATION_RETRIES = 2` (vision_interaction.py line 78). -/
def MAX_OBSERVATION_RETRIES : ℕ := 2

/-- Externally-visible calls issued by the grasp pipeline.  `capture` is a
`camera_client.get_frames()` call inside `capture_and_detect`; the `move*`
and `grip*` constructors are the robot motion / gripper calls of
`execute_grasp_sequence` (the observation move at the top of the attempt
loop is commented out in the source, so no constructor is needed for it). -/
inductive Ev where
  | capture
  | gripOpen
  | movePre
  | moveGrasp
  | gripClose
  | movePost
  deriving DecidableEq, Repr

/-- Command JSON `target` sub-dictionary (`command_json["target"]`). -/
structure Target where
  id : Option String                      -- target.get("id"), default "unknown_object"
  base_coordinates_mm : Option (List ℚ)   -- target.get("base_coordinates_mm")
  arm_choice : Option String              -- target.get("arm_choice")

/-- Command JSON.  `target = none` models a missing or non-dict "target". -/
structure Command where
  action : Option String
  target : Option Target

/-- The external world the orchestrator touches: availability of controllers,
models, cameras and calibration matrices (the four precondition lookups), and
per-attempt outcomes of the perception and motion steps.  `detect n` is true
when attempt `n`'s `capture_and_detect` returns a detection box together with
a depth frame; `camPos n` / `basePos n` are the success of
`calculate_3d_position_camera_frame` / `transform_camera_to_base`;
`movePre/moveGrasp/movePost n` are the success results of the three moves of
`execute_grasp_sequence` during attempt `n`. -/
structure GraspEnv where
  controllers : String → Bool
  models : String → Bool
  cameras : String → Bool
  calib : String → Bool
  detect : ℕ → Bool
  camPos : ℕ → Bool
  basePos : ℕ → Bool
  movePre : ℕ → Bool
  moveGrasp : ℕ → Bool
  movePost : ℕ → Bool

/-- `execute_grasp_sequence(arm_choice, pre, grasp, post, robot_controllers)`:
looks up the controller, then runs
open gripper → move pre-grasp → move grasp → close gripper → move post-grasp.
A failed pre-grasp or grasp move returns `False` immediately; a failed
post-grasp move only prints a warning and the function still returns `True`.
Result: `(success, issued calls in order)`. -/
def execute_grasp_sequence (arm : String) (controllers : String → Bool)
    (okPre okGrasp okPost : Bool) : Bool × List Ev :=
  if arm ≠ "left" ∧ arm ≠ "right" then (false, [])
  else if ¬ controllers arm then (false, [])
  else if ¬ okPre then (false, [.gripOpen, .movePre])
  else if ¬ okGrasp then (false, [.gripOpen, .movePre, .moveGrasp])
  else (true, [.gripOpen, .movePre, .moveGrasp, .gripClose, .movePost])

/-- The attempt loop of `initiate_grasp_from_command`
(`for attempt in range(MAX_OBSERVATION_RETRIES): ...`).  Each iteration
captures a frame (`capture_and_detect` always calls `get_frames` once), and a
failure of any perception stage falls through to the next attempt; a
successful perception runs `execute_grasp_sequence`, whose success breaks the
loop.  `attempt` is the current index, `remaining` the iterations left. -/
def graspLoop (env : GraspEnv) (arm : String) : ℕ → ℕ → Bool × List Ev
  | _, 0 => (false, [])
  | attempt, remaining + 1 =>
      if ¬ env.detect attempt then
        let r := graspLoop env arm (attempt + 1) remaining
        (r.1, Ev.capture :: r.2)
      else if ¬ env.camPos attempt then
        let r := graspLoop env arm (attempt + 1) remaining
        (r.1, Ev.capture :: r.2)
      else if ¬ env.basePos attempt then
        let r := graspLoop env arm (attempt + 1) remaining
        (r.1, Ev.capture :: r.2)
      else
        let e := execute_grasp_sequence arm env.controllers
                  (env.movePre attempt) (env.moveGrasp attempt) (env.movePost attempt)
        if e.1 then (true, Ev.capture :: e.2)
        else
          let r := graspLoop env arm (attempt + 1) remaining
          (r.1, Ev.capture :: e.2 ++ r.2)

/-- `initiate_grasp_from_command(command_json, robot_controllers,
camera_clients, models, calibration_matrices)`: validates the command shape
(action "grasp", dict target, 3-element coordinates, arm in {left, right}),
looks up the four preconditions — controller, YOLO model for the object id or
`'default'`, hand camera `f"{arm_choice}_hand"`, calibration matrix — and
returns `False` before any call if any lookup fails; otherwise runs the
attempt loop.  Result: `(grasp_successful, issued calls in order)`. -/
def initiate_grasp_from_command (cmd : Command) (env : GraspEnv) : Bool × List Ev :=
  if cmd.action ≠ some "grasp" then (false, [])
  else
    match cmd.target with
    | none => (false, [])
    | some t =>
        let object_id := t.id.getD "unknown_object"
        match t.base_coordinates_mm with
        | none => (false, [])
        | some coords =>
            if coords.length ≠ 3 then (false, [])
            else
              match t.arm_choice with
              | none => (false, [])
              | some arm =>
                  if arm ≠ "left" ∧ arm ≠ "right" then (false, [])
                  else if ¬ env.controllers arm then (false, [])
                  else if ¬ (env.models object_id ∨ env.models "default") then (false, [])
                  else if ¬ env.cameras (arm ++ "_hand") then (false, [])
                  else if ¬ env.calib arm then (false, [])
                  else graspLoop env arm 0 MAX_OBSERVATION_RETRIES

/-- Number of frame captures in a call trace. -/
def captureCount (tr : List Ev) : ℕ := (tr.filter (· = Ev.capture)).length

/-- Number of robot motion calls in a call trace (pre-grasp, grasp and
post-grasp moves; gripper actions and captures are not motion calls). -/
def motionCount (tr : List Ev) : ℕ :=
  (tr.filter (fun e => e = Ev.movePre ∨ e = Ev.moveGrasp ∨ e = Ev.movePost)).length

/-! ## Depth sampling (camera/orbbec_camera.py, get_depth_for_color_pixel)

The depth image is a function `d : ℕ → ℕ → ℕ` (row `y`, column `x`, value in
millimetres; the source's `depth_data[y, x]`) of size `h × w`. -/

/-- One radius of the expanding search: the window
`[max(cx-r,0), min(cx+r+1,w)) × [max(cy-r,0), min(cy+r+1,h))`, scanned with
`x` as the outer loop and `y` as the inner loop exactly as in the source
(`for x in range(min_x, max_x): for y in range(min_y, max_y): ...`),
returning the first depth value `> 0`, if any.  Natural subtraction models
Python's `max(center - r, 0)` clamp. -/
def scanWindow (d : ℕ → ℕ → ℕ) (w h cx cy r : ℕ) : Option ℕ :=
  let minX := cx - r
  let maxX := min (cx + r + 1) w
  let minY := cy - r
  let maxY := min (cy + r + 1) h
  let pixels := (List.range' minX (maxX - minX)).flatMap
    (fun x => (List.range' minY (maxY - minY)).map (fun y => (x, y)))
  (pixels.find? (fun p => 0 < d p.2 p.1)).map (fun p => d p.2 p.1)

/-- The `while not found:` loop of `get_depth_for_color_pixel`, starting at
`search_radius = 1` and incrementing the radius after each failed scan.  The
source loop has no other exit; `fuel` bounds the number of iterations we
unfold, so the loop terminates with value `v` iff
`∃ fuel, searchLoop ... fuel = some v`. -/
def searchLoop (d : ℕ → ℕ → ℕ) (w h cx cy : ℕ) : ℕ → ℕ → Option ℕ
  | _, 0 => none
  | r, fuel + 1 =>
      match scanWindow d w h cx cy r with
      | some v => some v
      | none => searchLoop d w h cx cy (r + 1) fuel

/-- `get_depth_for_color_pixel(depth_frame, color_point)`: the source sets
`center_depth = 0` and (since that literal is always zero) unconditionally
runs the expanding-radius search from radius 1.  `some v` means the loop
terminates within `fuel` iterations returning `v`; `none` means it has not
terminated after `fuel` iterations. -/
def get_depth_for_color_pixel (d : ℕ → ℕ → ℕ) (w h cx cy fuel : ℕ) : Option ℕ :=
  searchLoop d w h cx cy 1 fuel

/-! ## Per-tick velocity synthesis (main_controller.py, _calculate_speed_commands) -/

/-- Python's `sub in s` substring test. -/
def strContains (s pat : String) : Bool :=
  (List.range (s.length + 1)).any (fun i => pat.data.isPrefixOf (s.data.drop i))

/-- Python's `s.startswith(pat)` prefix test. -/
def strStartsWith (s pat : String) : Bool := pat.data.isPrefixOf s.data

/-- The mode strings of config.py (`MODE_XYZ = 'XYZ'`, …). -/
def modeName : ControlMode → String
  | .xyz => "XYZ"
  | .rpy => "RPY"
  | .reset => "RESET"
  | .vision => "VISION"

/-- `current_mode_prefix = self.control_mode.lower() + "_"`, written out
per mode. -/
def modePrefix : ControlMode → String
  | .xyz => "xyz_"
  | .rpy => "rpy_"
  | .reset => "reset_"
  | .vision => "vision_"

/-- One control binding from the YAML `controls` table
(`{'type': ..., 'index': ...}`); activation details (threshold, direction,
hat axis) are consumed by the input-binding evaluator, which we abstract as
part of the device state. -/
structure ControlCfg where
  ctype : String
  index : ℤ
  deriving DecidableEq

/-- Live device state: joystick presence, the input-binding evaluator
`get_joystick_input_state(cfg)` (no event argument: the current activation
level), and raw axis reads `joystick.get_axis(i)` where `none` models the
`pygame.error` / `IndexError` caught in the source. -/
structure Device where
  hasJoystick : Bool
  active : ControlCfg → Bool
  axisVal : ℤ → Option ℚ

/-- The speed settings used by the synthesizer
(`current_speed_xy`, `current_speed_z`, `rpy_speed`). -/
structure Speeds where
  xy : ℚ
  z : ℚ
  rpy : ℚ

/-- Axis index and base speed selected from the action name, mirroring the
`'_x' in action … '_yaw' in action` chains of `_calculate_speed_commands`;
`none` models `axis_idx == -1` (no update). -/
def axisSelect (mode : ControlMode) (sp : Speeds) (action : String) : Option (Fin 6 × ℚ) :=
  match mode with
  | .xyz =>
      if strContains action "_x" then some (0, sp.xy)
      else if strContains action "_y" then some (1, sp.xy)
      else if strContains action "_z" then some (2, sp.z)
      else none
  | .rpy =>
      if strContains action "_roll" then some (3, sp.rpy)
      else if strContains action "_pitch" then some (4, sp.rpy)
      else if strContains action "_yaw" then some (5, sp.rpy)
      else none
  | _ => none

/-- `direction = 1.0 if '_pos' in action else -1.0 if '_neg' in action else 1.0`. -/
def actionDirection (action : String) : ℚ :=
  if strContains action "_pos" then 1 else if strContains action "_neg" then -1 else 1

/-- The in-place update of one target array entry: for an `'axis'` binding the
component is `base_speed * abs(axis_val) * direction` (or `0` when the axis
read raises); for other binding kinds it is `base_speed * direction`. -/
def updatedArray (mode : ControlMode) (sp : Speeds) (dev : Device) (action : String)
    (cfg : ControlCfg) (arr : Fin 6 → ℚ) : Fin 6 → ℚ :=
  match axisSelect mode sp action with
  | none => arr
  | some (i, base) =>
      if cfg.ctype = "axis" then
        match dev.axisVal cfg.index with
        | some v => Function.update arr i (base * |v| * actionDirection action)
        | none => Function.update arr i 0
      else Function.update arr i (base * actionDirection action)

/-- One iteration of the `for action, control_cfg in self.controls_map.items()`
loop: the action must start with the mode prefix and contain `'_arm'`, the
binding must be active, and `'left_arm'` / `'right_arm'` selects which arm's
command array is updated (anything else is `continue`). -/
def applyBinding (mode : ControlMode) (sp : Speeds) (dev : Device)
    (p : (Fin 6 → ℚ) × (Fin 6 → ℚ)) (b : String × ControlCfg) :
    (Fin 6 → ℚ) × (Fin 6 → ℚ) :=
  if ¬ (strStartsWith b.1 (modePrefix mode) ∧ strContains b.1 "_arm") then p
  else if ¬ dev.active b.2 then p
  else if strContains b.1 "left_arm" then (updatedArray mode sp dev b.1 b.2 p.1, p.2)
  else if strContains b.1 "right_arm" then (p.1, updatedArray mode sp dev b.1 b.2 p.2)
  else p

/-- `_calculate_speed_commands`: both commands start as `np.zeros(6)`; with no
joystick they are returned unchanged, and the binding loop only runs when the
mode is `MODE_XYZ` or `MODE_RPY`.  Result: `(speed_left_cmd, speed_right_cmd)`. -/
def calculate_speed_commands (mode : ControlMode) (controls : List (String × ControlCfg))
    (sp : Speeds) (dev : Device) : (Fin 6 → ℚ) × (Fin 6 → ℚ) :=
  if ¬ dev.hasJoystick then (fun _ => 0, fun _ => 0)
  else if mode = .xyz ∨ mode = .rpy then
    controls.foldl (applyBinding mode sp dev) (fun _ => 0, fun _ => 0)
  else (fun _ => 0, fun _ => 0)

/-! ## Rotation correction (main_controller.py, _apply_transformations)

scipy's `R.from_euler('xyz', [ax, ay, az], degrees=True).as_matrix()` is the
extrinsic composition `Rz(az) · Ry(ay) · Rx(ax)` with angles in radians. -/

noncomputable def rotX (a : ℝ) : Matrix (Fin 3) (Fin 3) ℝ :=
  !![1, 0, 0; 0, Real.cos a, -(Real.sin a); 0, Real.sin a, Real.cos a]

noncomputable def rotY (a : ℝ) : Matrix (Fin 3) (Fin 3) ℝ :=
  !![Real.cos a, 0, Real.sin a; 0, 1, 0; -(Real.sin a), 0, Real.cos a]

noncomputable def rotZ (a : ℝ) : Matrix (Fin 3) (Fin 3) ℝ :=
  !![Real.cos a, -(Real.sin a), 0; Real.sin a, Real.cos a, 0; 0, 0, 1]

noncomputable def degToRad (d : ℝ) : ℝ := d * Real.pi / 180

noncomputable def eulerXYZMatrix (ax ay az : ℝ) : Matrix (Fin 3) (Fin 3) ℝ :=
  rotZ az * rotY ay * rotX ax

/-- `rot_left = R.from_euler('xyz', [65, 0, 10], degrees=True).as_matrix()`. -/
noncomputable def rot_left : Matrix (Fin 3) (Fin 3) ℝ :=
  eulerXYZMatrix (degToRad 65) (degToRad 0) (degToRad 10)

/-- `rot_right = R.from_euler('xyz', [65.334, -4.208, -9.079], degrees=True).as_matrix()`. -/
noncomputable def rot_right : Matrix (Fin 3) (Fin 3) ℝ :=
  eulerXYZMatrix (degToRad 65.334) (degToRad (-4.208)) (degToRad (-9.079))

/-- The XYZ-mode treatment of one arm's command: translation sub-vector
becomes the row-vector–matrix product `cmd[:3] @ rot` when the rotation
matrix was constructed and applied without raising (`some rot`), and is
zeroed by the `except` branch otherwise (`none`); the orientation sub-vector
is forced to zero either way (`speed_final[3:] = 0.0`). -/
noncomputable def transformWith (rotRes : Option (Matrix (Fin 3) (Fin 3) ℝ))
    (cmd : Fin 6 → ℝ) : Fin 6 → ℝ :=
  fun k =>
    if hk : (k : ℕ) < 3 then
      match rotRes with
      | some M => ∑ i : Fin 3, cmd ⟨i.1, Nat.lt_of_lt_of_le i.2 (by norm_num)⟩ * M i ⟨k, hk⟩
      | none => 0
    else 0

/-- `_apply_transformations(speed_left_cmd, speed_right_cmd)` (with scipy
available): XYZ mode rotation-corrects each translation and zeroes the
orientations; RPY mode passes the orientation sub-vectors through over zero
translations; all other modes return the zero-initialized finals. -/
noncomputable def apply_transformations (mode : ControlMode)
    (rotL rotR : Option (Matrix (Fin 3) (Fin 3) ℝ)) (cmdL cmdR : Fin 6 → ℝ) :
    (Fin 6 → ℝ) × (Fin 6 → ℝ) :=
  match mode with
  | .xyz => (transformWith rotL cmdL, transformWith rotR cmdR)
  | .rpy => (fun k => if (k : ℕ) < 3 then 0 else cmdL k,
             fun k => if (k : ℕ) < 3 then 0 else cmdR k)
  | _ => (fun _ => 0, fun _ => 0)

/-- `run_main_loop` dispatches per-tick motion commands
(`_send_robot_commands`) only when `self.control_mode in [MODE_XYZ, MODE_RPY]`. -/
def dispatchesMotion (mode : ControlMode) : Bool := mode = .xyz ∨ mode = .rpy

def liftCmd (v : Fin 6 → ℚ) : Fin 6 → ℝ := fun i => (v i : ℝ)

/-- One control tick of `run_main_loop`: synthesize raw commands, then apply
the fixed per-arm rotation corrections. -/
noncomputable def tickCommands (mode : ControlMode) (controls : List (String × ControlCfg))
    (sp : Speeds) (dev : Device) : (Fin 6 → ℝ) × (Fin 6 → ℝ) :=
  let c := calculate_speed_commands mode controls sp dev
  apply_transformations mode (some rot_left) (some rot_right) (liftCmd c.1) (liftCmd c.2)

/-! ## Theorems settling the claims -/

/-- C8: the mode-switch operation advances the control mode along the strict
single-direction cycle XYZ (CartesianJog) → RPY (OrientationJog) → RESET
(PosePreset) → VISION (VisionGuided) → XYZ, and applying it four times from
any mode returns the system to the original mode. -/
theorem C8_mode_cycle :
    nextMode .xyz = .rpy ∧ nextMode .rpy = .reset ∧ nextMode .reset = .vision ∧
    nextMode .vision = .xyz ∧
    ∀ m : ControlMode, nextMode (nextMode (nextMode (nextMode m))) = m := by
  refine ⟨rfl, rfl, rfl, rfl, ?_⟩
  intro m; cases m <;> rfl

/-- The speed bounds are preserved by a single speed-button event. -/
theorem handleSpeedEvent_bounds (minS maxS incr : ℚ) (h1 : minS ≤ maxS) (h2 : 0 ≤ incr)
    (e : SpeedEvent) (s : SpeedState)
    (hxy : minS ≤ s.xy ∧ s.xy ≤ maxS) (hz : minS ≤ s.z ∧ s.z ≤ maxS) :
    (minS ≤ (handleSpeedEvent minS maxS incr e s).xy ∧
      (handleSpeedEvent minS maxS incr e s).xy ≤ maxS) ∧
    (minS ≤ (handleSpeedEvent minS maxS incr e s).z ∧
      (handleSpeedEvent minS maxS incr e s).z ≤ maxS) := by
  obtain ⟨hxy1, hxy2⟩ := hxy
  obtain ⟨hz1, hz2⟩ := hz
  cases e
  · simp only [handleSpeedEvent]
    exact ⟨⟨le_min h1 (by linarith), min_le_left _ _⟩,
           ⟨le_min h1 (by linarith), min_le_left _ _⟩⟩
  · simp only [handleSpeedEvent]
    exact ⟨⟨le_max_left _ _, max_le h1 (by linarith)⟩,
           ⟨le_max_left _ _, max_le h1 (by linarith)⟩⟩

/-- C10: with `min_speed ≤ max_speed` and a nonnegative `speed_increment`,
starting from xy/z jog speeds within the configured bounds, no sequence of
speed-increase / speed-decrease button events can drive either speed outside
`[min_speed, max_speed]`: increases are clamped to `max_speed` and decreases
to `min_speed`. -/
theorem C10_speed_bounds_invariant (minS maxS incr : ℚ) (h1 : minS ≤ maxS) (h2 : 0 ≤ incr)
    (evs : List SpeedEvent) (s : SpeedState)
    (hxy : minS ≤ s.xy ∧ s.xy ≤ maxS) (hz : minS ≤ s.z ∧ s.z ≤ maxS) :
    (minS ≤ (runSpeedEvents minS maxS incr evs s).xy ∧
      (runSpeedEvents minS maxS incr evs s).xy ≤ maxS) ∧
    (minS ≤ (runSpeedEvents minS maxS incr evs s).z ∧
      (runSpeedEvents minS maxS incr evs s).z ≤ maxS) := by
  induction evs generalizing s with
  | nil => exact ⟨hxy, hz⟩
  | cons e t ih =>
      have step := handleSpeedEvent_bounds minS maxS incr h1 h2 e s hxy hz
      exact ih (handleSpeedEvent minS maxS incr e s) step.1 step.2

/-- Witness for C10 at the configured defaults (min 5, max 100, increment 5,
initial speeds 40/30) and a concrete event sequence. -/
theorem C10_speed_bounds_invariant_witness :
    ((5:ℚ) ≤ 100 ∧ (0:ℚ) ≤ 5 ∧ ((5:ℚ) ≤ 40 ∧ (40:ℚ) ≤ 100) ∧ ((5:ℚ) ≤ 30 ∧ (30:ℚ) ≤ 100)) ∧
    ((5 ≤ (runSpeedEvents 5 100 5 [.inc, .inc, .dec] ⟨40, 30⟩).xy ∧
        (runSpeedEvents 5 100 5 [.inc, .inc, .dec] ⟨40, 30⟩).xy ≤ 100) ∧
      (5 ≤ (runSpeedEvents 5 100 5 [.inc, .inc, .dec] ⟨40, 30⟩).z ∧
        (runSpeedEvents 5 100 5 [.inc, .inc, .dec] ⟨40, 30⟩).z ≤ 100)) :=
  ⟨⟨by norm_num, by norm_num, ⟨by norm_num, by norm_num⟩, ⟨by norm_num, by norm_num⟩⟩,
    C10_speed_bounds_invariant 5 100 5 (by norm_num) (by norm_num) [.inc, .inc, .dec] ⟨40, 30⟩
      ⟨by norm_num, by norm_num⟩ ⟨by norm_num, by norm_num⟩⟩

/-- C4 counterexample: for the grasp position `[0,0,0]` with the left arm, the
post-grasp z offset (50 mm) is strictly BELOW the pre-grasp z offset (100 mm),
refuting "the post-grasp z offset is strictly greater than the pre-grasp z
offset". -/
theorem C4_counterexample :
    (calculate_grasp_poses [0, 0, 0] "left" none).2.2.getD 2 0 <
      (calculate_grasp_poses [0, 0, 0] "left" none).1.getD 2 0 := by
  norm_num [calculate_grasp_poses, graspRpy, DEFAULT_LEFT_GRASP_RPY,
    PRE_GRASP_OFFSET_Z_MM, POST_GRASP_LIFT_Z_MM, List.getD]

/-- C4 (amended): the pre-grasp pose equals the grasp pose offset upward (z)
by the fixed approach distance `PRE_GRASP_OFFSET_Z_MM = 100`, the post-grasp
pose equals the grasp pose offset upward by the SMALLER fixed lift distance
`POST_GRASP_LIFT_Z_MM = 50` (the post-grasp z offset is strictly less than
the pre-grasp z offset), and every non-z component — position x, y and all
three orientation components — is identical across the three poses. -/
theorem C4_grasp_pose_offsets (coords : List ℚ) (arm : String) (objRpy : Option (List ℚ))
    (hlen : coords.length = 3) :
    (calculate_grasp_poses coords arm objRpy).1.getD 2 0 =
        (calculate_grasp_poses coords arm objRpy).2.1.getD 2 0 + PRE_GRASP_OFFSET_Z_MM ∧
    (calculate_grasp_poses coords arm objRpy).2.2.getD 2 0 =
        (calculate_grasp_poses coords arm objRpy).2.1.getD 2 0 + POST_GRASP_LIFT_Z_MM ∧
    POST_GRASP_LIFT_Z_MM < PRE_GRASP_OFFSET_Z_MM ∧
    ∀ i : ℕ, i ≠ 2 →
      (calculate_grasp_poses coords arm objRpy).1.getD i 0 =
          (calculate_grasp_poses coords arm objRpy).2.1.getD i 0 ∧
      (calculate_grasp_poses coords arm objRpy).2.2.getD i 0 =
          (calculate_grasp_poses coords arm objRpy).2.1.getD i 0 := by
  obtain ⟨a, b, c, rfl⟩ := List.length_eq_three.mp hlen
  obtain ⟨r0, r1, r2, hr⟩ := List.length_eq_three.mp (graspRpy_length arm objRpy)
  unfold calculate_grasp_poses
  rw [hr]
  refine ⟨by simp, by simp, by norm_num [PRE_GRASP_OFFSET_Z_MM, POST_GRASP_LIFT_Z_MM], ?_⟩
  intro i hi
  rcases i with _ | _ | _ | _ | _ | _ | i <;> simp_all [List.getD]

/-- Witness for C4's amended theorem at the concrete grasp position
`[10, 20, 30]` with the right arm and no object orientation. -/
theorem C4_grasp_pose_offsets_witness :
    ([(10:ℚ), 20, 30].length = 3) ∧
    ((calculate_grasp_poses [10, 20, 30] "right" none).1.getD 2 0 =
        (calculate_grasp_poses [10, 20, 30] "right" none).2.1.getD 2 0 + PRE_GRASP_OFFSET_Z_MM ∧
      (calculate_grasp_poses [10, 20, 30] "right" none).2.2.getD 2 0 =
        (calculate_grasp_poses [10, 20, 30] "right" none).2.1.getD 2 0 + POST_GRASP_LIFT_Z_MM ∧
      POST_GRASP_LIFT_Z_MM < PRE_GRASP_OFFSET_Z_MM ∧
      ∀ i : ℕ, i ≠ 2 →
        (calculate_grasp_poses [10, 20, 30] "right" none).1.getD i 0 =
            (calculate_grasp_poses [10, 20, 30] "right" none).2.1.getD i 0 ∧
        (calculate_grasp_poses [10, 20, 30] "right" none).2.2.getD i 0 =
            (calculate_grasp_poses [10, 20, 30] "right" none).2.1.getD i 0) :=
  ⟨by simp, C4_grasp_pose_offsets [10, 20, 30] "right" none (by simp)⟩

/-- C7: the pose-preset executor issues exactly one blocking move per
invocation whatever that move's outcome, except that a failed current-pose
read fails with zero moves issued; the issued move keeps the arm's current
translation and substitutes exactly the requested orientation. -/
theorem C7_pose_preset_executor (cp target_rpy : List ℚ) (moveOk : Bool)
    (h6 : cp.length = 6) (h3 : target_rpy.length = 3) :
    attempt_reset_arm none target_rpy moveOk = (false, []) ∧
    (attempt_reset_arm (some cp) target_rpy moveOk).2.length = 1 ∧
    (attempt_reset_arm (some cp) target_rpy moveOk).1 = moveOk ∧
    ∀ t ∈ (attempt_reset_arm (some cp) target_rpy moveOk).2,
      t.take 3 = cp.take 3 ∧ t.drop 3 = target_rpy := by
  refine ⟨rfl, rfl, rfl, ?_⟩
  intro t ht
  simp only [attempt_reset_arm, desire_pose, List.mem_singleton] at ht
  subst ht
  have hdrop : cp.drop 6 = [] := List.drop_eq_nil_of_le (le_of_eq h6)
  have htake : (cp.take 3).length = 3 := by simp [h6]
  rw [hdrop, List.append_nil]
  exact ⟨List.take_left' htake, List.drop_left' htake⟩

/-- Witness for C7 at a concrete current pose, requested orientation and a
successful move. -/
theorem C7_pose_preset_executor_witness :
    ([(1:ℚ), 2, 3, 4, 5, 6].length = 6 ∧ [(180:ℚ), 0, 90].length = 3) ∧
    (attempt_reset_arm none [(180:ℚ), 0, 90] true = (false, []) ∧
      (attempt_reset_arm (some [(1:ℚ), 2, 3, 4, 5, 6]) [180, 0, 90] true).2.length = 1 ∧
      (attempt_reset_arm (some [(1:ℚ), 2, 3, 4, 5, 6]) [180, 0, 90] true).1 = true ∧
      ∀ t ∈ (attempt_reset_arm (some [(1:ℚ), 2, 3, 4, 5, 6]) [180, 0, 90] true).2,
        t.take 3 = [(1:ℚ), 2, 3, 4, 5, 6].take 3 ∧ t.drop 3 = [(180:ℚ), 0, 90]) :=
  ⟨⟨by simp, by simp⟩,
    C7_pose_preset_executor [1, 2, 3, 4, 5, 6] [180, 0, 90] true (by simp) (by simp)⟩

/-- C1: a well-formed grasp request with any missing precondition — arm
controller unavailable, hand camera unavailable, neither the object's model
nor a default model loaded, or calibration matrix absent — makes the grasp
orchestrator return failure immediately with an empty call trace: no frame
capture and no motion call. -/
theorem C1_precondition_short_circuit (oid : Option String) (coords : List ℚ)
    (arm : String) (env : GraspEnv) (hlen : coords.length = 3)
    (harm : arm = "left" ∨ arm = "right")
    (hmiss : env.controllers arm = false ∨
      (env.models (oid.getD "unknown_object") = false ∧ env.models "default" = false) ∨
      env.cameras (arm ++ "_hand") = false ∨ env.calib arm = false) :
    initiate_grasp_from_command ⟨some "grasp", some ⟨oid, some coords, some arm⟩⟩ env
      = (false, []) := by
  have harm' : ¬ (arm ≠ "left" ∧ arm ≠ "right") := by
    rcases harm with h | h <;> simp [h]
  rcases hmiss with h | ⟨h1, h2⟩ | h | h <;>
    simp [initiate_grasp_from_command, hlen, harm', *]

/-- Witness for C1: a concrete request for a "bottle" with the left arm whose
environment lacks the left calibration matrix (all other lookups succeed). -/
theorem C1_precondition_short_circuit_witness :
    (([(100:ℚ), 0, 50].length = 3) ∧ ("left" = "left" ∨ "left" = "right") ∧
      (fun _ : String => false) "left" = false) ∧
    initiate_grasp_from_command
        ⟨some "grasp", some ⟨some "bottle", some [(100:ℚ), 0, 50], some "left"⟩⟩
        ⟨fun _ => true, fun _ => true, fun _ => true, fun _ => false,
          fun _ => true, fun _ => true, fun _ => true,
          fun _ => true, fun _ => true, fun _ => true⟩
      = (false, []) :=
  ⟨⟨by simp, Or.inl rfl, rfl⟩,
    C1_precondition_short_circuit (some "bottle") [100, 0, 50] "left"
      ⟨fun _ => true, fun _ => true, fun _ => true, fun _ => false,
        fun _ => true, fun _ => true, fun _ => true,
        fun _ => true, fun _ => true, fun _ => true⟩
      (by simp) (Or.inl rfl) (Or.inr (Or.inr (Or.inr rfl)))⟩

/-- No frame capture is ever issued by `execute_grasp_sequence`. -/
theorem execute_grasp_sequence_no_capture (arm : String) (controllers : String → Bool)
    (okPre okGrasp okPost : Bool) :
    captureCount (execute_grasp_sequence arm controllers okPre okGrasp okPost).2 = 0 := by
  unfold execute_grasp_sequence
  split
  · rfl
  · split
    · rfl
    · split
      · rfl
      · split <;> rfl

/-- The attempt loop performs at most `remaining` frame captures. -/
theorem graspLoop_captures_le (env : GraspEnv) (arm : String) :
    ∀ (remaining attempt : ℕ), captureCount (graspLoop env arm attempt remaining).2 ≤ remaining := by
  intro remaining
  induction remaining with
  | zero => intro attempt; simp [graspLoop, captureCount]
  | succ rem ih =>
      intro attempt
      unfold graspLoop
      split
      · simpa [captureCount] using Nat.succ_le_succ (ih (attempt + 1))
      · split
        · simpa [captureCount] using Nat.succ_le_succ (ih (attempt + 1))
        · split
          · simpa [captureCount] using Nat.succ_le_succ (ih (attempt + 1))
          · dsimp only
            split
            · have h0 := execute_grasp_sequence_no_capture arm env.controllers
                (env.movePre attempt) (env.moveGrasp attempt) (env.movePost attempt)
              simp only [captureCount] at h0 ⊢
              simp only [List.filter_cons]
              simp [h0]
            · have h0 := execute_grasp_sequence_no_capture arm env.controllers
                (env.movePre attempt) (env.moveGrasp attempt) (env.movePost attempt)
              simp only [captureCount] at h0 ⊢
              simp only [List.filter_cons, List.filter_append]
              simpa [h0] using Nat.succ_le_succ (ih (attempt + 1))

/-- C2: the attempt loop never performs more frame captures than the retry
bound (`graspLoop` conjunct); and with the bound at its configured value 2,
all preconditions satisfied and a detector that never yields a matching
detection with valid depth, the orchestrator performs exactly 2 frame
captures, issues zero motion calls, and returns failure. -/
theorem C2_retry_bound (oid : Option String) (coords : List ℚ) (arm : String)
    (env : GraspEnv) (hlen : coords.length = 3) (harm : arm = "left" ∨ arm = "right")
    (hctl : env.controllers arm = true)
    (hmod : env.models (oid.getD "unknown_object") = true ∨ env.models "default" = true)
    (hcam : env.cameras (arm ++ "_hand") = true) (hcal : env.calib arm = true)
    (hdet : ∀ n, env.detect n = false) :
    (∀ remaining attempt : ℕ,
        captureCount (graspLoop env arm attempt remaining).2 ≤ remaining) ∧
    MAX_OBSERVATION_RETRIES = 2 ∧
    (initiate_grasp_from_command ⟨some "grasp", some ⟨oid, some coords, some arm⟩⟩ env).1
        = false ∧
    captureCount
        (initiate_grasp_from_command ⟨some "grasp", some ⟨oid, some coords, some arm⟩⟩ env).2
        = 2 ∧
    motionCount
        (initiate_grasp_from_command ⟨some "grasp", some ⟨oid, some coords, some arm⟩⟩ env).2
        = 0 := by
  have harm' : ¬ (arm ≠ "left" ∧ arm ≠ "right") := by
    rcases harm with h | h <;> simp [h]
  have hrun : initiate_grasp_from_command ⟨some "grasp", some ⟨oid, some coords, some arm⟩⟩ env
      = graspLoop env arm 0 MAX_OBSERVATION_RETRIES := by
    rcases hmod with h | h <;>
      simp [initiate_grasp_from_command, hlen, harm', hctl, hcam, hcal, h]
  have hloop : graspLoop env arm 0 MAX_OBSERVATION_RETRIES = (false, [.capture, .capture]) := by
    simp [MAX_OBSERVATION_RETRIES, graspLoop, hdet 0, hdet 1]
  refine ⟨graspLoop_captures_le env arm, rfl, ?_, ?_, ?_⟩ <;>
    simp [hrun, hloop, captureCount, motionCount]

/-- Witness for C2: concrete environment with every precondition satisfied
and a detector that always fails. -/
theorem C2_retry_bound_witness :
    (([(100:ℚ), 0, 50].length = 3) ∧ ("left" = "left" ∨ "left" = "right")) ∧
    ((initiate_grasp_from_command
        ⟨some "grasp", some ⟨some "bottle", some [(100:ℚ), 0, 50], some "left"⟩⟩
        ⟨fun _ => true, fun _ => true, fun _ => true, fun _ => true,
          fun _ => false, fun _ => true, fun _ => true,
          fun _ => true, fun _ => true, fun _ => true⟩).1 = false ∧
      captureCount
        (initiate_grasp_from_command
          ⟨some "grasp", some ⟨some "bottle", some [(100:ℚ), 0, 50], some "left"⟩⟩
          ⟨fun _ => true, fun _ => true, fun _ => true, fun _ => true,
            fun _ => false, fun _ => true, fun _ => true,
            fun _ => true, fun _ => true, fun _ => true⟩).2 = 2 ∧
      motionCount
        (initiate_grasp_from_command
          ⟨some "grasp", some ⟨some "bottle", some [(100:ℚ), 0, 50], some "left"⟩⟩
          ⟨fun _ => true, fun _ => true, fun _ => true, fun _ => true,
            fun _ => false, fun _ => true, fun _ => true,
            fun _ => true, fun _ => true, fun _ => true⟩).2 = 0) :=
  ⟨⟨by simp, Or.inl rfl⟩,
    ((C2_retry_bound (some "bottle") [100, 0, 50] "left"
      ⟨fun _ => true, fun _ => true, fun _ => true, fun _ => true,
        fun _ => false, fun _ => true, fun _ => true,
        fun _ => true, fun _ => true, fun _ => true⟩
      (by simp) (Or.inl rfl) rfl (Or.inl rfl) rfl rfl (fun _ => rfl)).2.2 : _)⟩

/-- C3 counterexample: with the left controller present, a successful
pre-grasp and grasp move but a FAILED post-grasp move, the execution sequence
still returns success (the source only prints a warning for a failed
post-grasp move), refuting "every move call that returns failure aborts that
attempt's execution ... for each of the three moves". -/
theorem C3_counterexample :
    (execute_grasp_sequence "left" (fun _ => true) true true false).1 = true ∧
    Ev.movePost ∈ (execute_grasp_sequence "left" (fun _ => true) true true false).2 := by
  constructor <;> decide

/-- C3 (amended): a failed pre-grasp move or a failed grasp move aborts the
attempt's execution immediately with failure (so the attempt falls through to
retry), but a failed post-grasp move does not abort: the sequence completes
(gripper already closed) and returns success regardless of the post-grasp
move's outcome. -/
theorem C3_move_failure_handling (ctl : String → Bool) (arm : String)
    (okGrasp okPost : Bool) (harm : arm = "left" ∨ arm = "right")
    (hctl : ctl arm = true) :
    execute_grasp_sequence arm ctl false okGrasp okPost
        = (false, [.gripOpen, .movePre]) ∧
    execute_grasp_sequence arm ctl true false okPost
        = (false, [.gripOpen, .movePre, .moveGrasp]) ∧
    execute_grasp_sequence arm ctl true true okPost
        = (true, [.gripOpen, .movePre, .moveGrasp, .gripClose, .movePost]) := by
  have harm' : ¬ (arm ≠ "left" ∧ arm ≠ "right") := by
    rcases harm with h | h <;> simp [h]
  refine ⟨?_, ?_, ?_⟩ <;> simp [execute_grasp_sequence, harm', hctl]

/-- Witness for C3's amended theorem with the left arm and an
always-available controller. -/
theorem C3_move_failure_handling_witness :
    (("left" = "left" ∨ "left" = "right") ∧ (fun _ : String => true) "left" = true) ∧
    (execute_grasp_sequence "left" (fun _ => true) false true true
        = (false, [.gripOpen, .movePre]) ∧
      execute_grasp_sequence "left" (fun _ => true) true false true
        = (false, [.gripOpen, .movePre, .moveGrasp]) ∧
      execute_grasp_sequence "left" (fun _ => true) true true true
        = (true, [.gripOpen, .movePre, .moveGrasp, .gripClose, .movePost])) :=
  ⟨⟨Or.inl rfl, rfl⟩,
    C3_move_failure_handling (fun _ => true) "left" true true (Or.inl rfl) rfl⟩

/-- C5: for every control tick in a mode other than XYZ (CartesianJog) or RPY
(OrientationJog) — i.e. RESET or VISION — the velocity synthesizer returns
the exact zero 6-vector for both arms regardless of the bindings and device
state, and `run_main_loop` dispatches no per-tick motion command to either
arm in those modes. -/
theorem C5_nonjog_modes_zero (controls : List (String × ControlCfg)) (sp : Speeds)
    (dev : Device) :
    calculate_speed_commands .reset controls sp dev = (fun _ => 0, fun _ => 0) ∧
    calculate_speed_commands .vision controls sp dev = (fun _ => 0, fun _ => 0) ∧
    dispatchesMotion .reset = false ∧ dispatchesMotion .vision = false := by
  refine ⟨?_, ?_, by decide, by decide⟩ <;>
    · unfold calculate_speed_commands
      split
      · rfl
      · split
        · simp_all
        · rfl

/-- Embedding of a translation index (0..2) into the 6-vector index space. -/
def fin3to6 (k : Fin 3) : Fin 6 := ⟨k.1, Nat.lt_of_lt_of_le k.isLt (by norm_num)⟩

/-- Embedding of an orientation index (3..5) into the 6-vector index space. -/
def orient6 (k : Fin 3) : Fin 6 := ⟨k.1 + 3, Nat.add_lt_add_right k.isLt 3⟩

theorem transformWith_some (M : Matrix (Fin 3) (Fin 3) ℝ) (cmd : Fin 6 → ℝ) (k : Fin 3) :
    transformWith (some M) cmd (fin3to6 k) = ∑ i : Fin 3, cmd (fin3to6 i) * M i k := by
  have hk : ((fin3to6 k : Fin 6) : ℕ) < 3 := k.isLt
  simp only [transformWith, dif_pos hk]
  rfl

theorem transformWith_orient (rotRes : Option (Matrix (Fin 3) (Fin 3) ℝ))
    (cmd : Fin 6 → ℝ) (k : Fin 3) :
    transformWith rotRes cmd (orient6 k) = 0 := by
  have hk : ¬ ((orient6 k : Fin 6) : ℕ) < 3 := by simp [orient6]
  simp [transformWith, hk]

theorem transformWith_none (cmd : Fin 6 → ℝ) (k : Fin 6) :
    transformWith none cmd k = 0 := by
  unfold transformWith
  split <;> rfl

/-- The concrete C6 scenario: only the left-arm "+x" binding is configured
(an axis binding on joystick axis 0), it reads 0.5, the binding evaluator
reports it active, and base speeds are xy = 40, z = 30, rpy = 20. -/
def scenario_controls : List (String × ControlCfg) := [("xyz_left_arm_x_pos", ⟨"axis", 0⟩)]

def scenario_device : Device :=
  ⟨true, fun _ => true, fun i => if i = 0 then some (1 / 2) else none⟩

def scenario_speeds : Speeds := ⟨40, 30, 20⟩

theorem scenario_precorrection :
    calculate_speed_commands .xyz scenario_controls scenario_speeds scenario_device
      = (![20, 0, 0, 0, 0, 0], fun _ => 0) := by
  have hstart : strStartsWith "xyz_left_arm_x_pos" (modePrefix .xyz) = true := by decide
  have harm : strContains "xyz_left_arm_x_pos" "_arm" = true := by decide
  have hleft : strContains "xyz_left_arm_x_pos" "left_arm" = true := by decide
  have hx : strContains "xyz_left_arm_x_pos" "_x" = true := by decide
  have hpos : strContains "xyz_left_arm_x_pos" "_pos" = true := by decide
  have habs : |(1 : ℚ) / 2| = 1 / 2 := by rw [abs_of_pos]; norm_num
  unfold calculate_speed_commands scenario_controls
  simp only [scenario_device, List.foldl_cons, List.foldl_nil, applyBinding, updatedArray,
    axisSelect, actionDirection, hstart, harm, hleft, hx, hpos, scenario_speeds]
  norm_num [habs]
  funext i
  fin_cases i <;> simp [Function.update, Fin.ext_iff] <;> decide

/-- C6: in XYZ (CartesianJog) mode, each arm's dispatched translation
component equals the raw translation sub-vector times that arm's fixed
rotation-correction matrix (row-vector times matrix), the orientation
sub-vector is zero; a rotation-correction failure (the `except` branch,
modelled by `none`) zeroes that arm's translation for the tick; and in the
concrete scenario — left-arm "+x" axis binding active at magnitude 0.5, base
speed 40 — the pre-correction vector is `[20,0,0,0,0,0]` and the dispatched
left translation equals `[20,0,0] · rot_left`. -/
theorem C6_xyz_rotation_correction :
    (∀ (cmdL cmdR : Fin 6 → ℝ) (k : Fin 3),
      (apply_transformations .xyz (some rot_left) (some rot_right) cmdL cmdR).1 (fin3to6 k)
          = ∑ i : Fin 3, cmdL (fin3to6 i) * rot_left i k ∧
      (apply_transformations .xyz (some rot_left) (some rot_right) cmdL cmdR).2 (fin3to6 k)
          = ∑ i : Fin 3, cmdR (fin3to6 i) * rot_right i k) ∧
    (∀ (cmdL cmdR : Fin 6 → ℝ) (k : Fin 3),
      (apply_transformations .xyz (some rot_left) (some rot_right) cmdL cmdR).1 (orient6 k) = 0 ∧
      (apply_transformations .xyz (some rot_left) (some rot_right) cmdL cmdR).2 (orient6 k) = 0) ∧
    (∀ (cmdL cmdR : Fin 6 → ℝ) (k : Fin 6),
      (apply_transformations .xyz none (some rot_right) cmdL cmdR).1 k = 0) ∧
    (calculate_speed_commands .xyz scenario_controls scenario_speeds scenario_device
        = (![20, 0, 0, 0, 0, 0], fun _ => 0)) ∧
    (∀ k : Fin 3,
      (tickCommands .xyz scenario_controls scenario_speeds scenario_device).1 (fin3to6 k)
          = ∑ i : Fin 3, (![(20 : ℝ), 0, 0]) i * rot_left i k) := by
  refine ⟨?_, ?_, ?_, scenario_precorrection, ?_⟩
  · intro cmdL cmdR k
    exact ⟨transformWith_some rot_left cmdL k, transformWith_some rot_right cmdR k⟩
  · intro cmdL cmdR k
    exact ⟨transformWith_orient (some rot_left) cmdL k,
      transformWith_orient (some rot_right) cmdR k⟩
  · intro cmdL cmdR k
    exact transformWith_none cmdL k
  intro k
  unfold tickCommands
  rw [scenario_precorrection]
  show transformWith (some rot_left) (liftCmd ![20, 0, 0, 0, 0, 0]) (fin3to6 k) = _
  rw [transformWith_some]
  refine Finset.sum_congr rfl fun i _ => ?_
  congr 1
  fin_cases i <;> norm_num [liftCmd, fin3to6]

/-- On an all-zero depth frame every window scan fails. -/
theorem scanWindow_all_zero (w h cx cy r : ℕ) :
    scanWindow (fun _ _ => 0) w h cx cy r = none := by
  simp [scanWindow, List.find?_eq_none]

/-- On an all-zero depth frame the expanding-radius loop never exits,
whatever the starting radius and however many iterations are unfolded. -/
theorem searchLoop_all_zero (w h cx cy : ℕ) :
    ∀ fuel r, searchLoop (fun _ _ => 0) w h cx cy r fuel = none := by
  intro fuel
  induction fuel with
  | zero => intro r; rfl
  | succ f ih => intro r; simp [searchLoop, scanWindow_all_zero, ih]

/-- C9: on a depth frame containing no nonzero depth value (here the 1×1
all-zero frame, center pixel (0,0)), `get_depth_for_color_pixel` never
returns: the `while not found` loop admits no exit, so no number of unfolded
iterations produces a result.  This contradicts the claim that the search
"gives up (returns) rather than looping forever". -/
theorem C9_all_zero_frame_loops_forever :
    ¬ ∃ fuel v, get_depth_for_color_pixel (fun _ _ => 0) 1 1 0 0 fuel = some v := by
  rintro ⟨fuel, v, hv⟩
  rw [get_depth_for_color_pixel, searchLoop_all_zero] at hv
  cases hv

/-- A successful window scan always returns a strictly positive depth. -/
theorem scanWindow_pos (d : ℕ → ℕ → ℕ) (w h cx cy r v : ℕ)
    (hv : scanWindow d w h cx cy r = some v) : 0 < v := by
  unfold scanWindow at hv
  simp only [Option.map_eq_some'] at hv
  obtain ⟨p, hfind, hvv⟩ := hv
  have hp := List.find?_some hfind
  rw [← hvv]
  simpa using hp

/-- If some radius within reach of the fuel admits a successful scan, the
loop terminates with a strictly positive depth. -/
theorem searchLoop_terminates (d : ℕ → ℕ → ℕ) (w h cx cy : ℕ) :
    ∀ fuel r, (∃ j, r ≤ j ∧ j < r + fuel ∧ (scanWindow d w h cx cy j).isSome) →
      ∃ v, 0 < v ∧ searchLoop d w h cx cy r fuel = some v := by
  intro fuel
  induction fuel with
  | zero =>
      rintro r ⟨j, hrj, hj, _⟩
      omega
  | succ f ih =>
      rintro r ⟨j, hrj, hj, hsome⟩
      rcases hscan : scanWindow d w h cx cy r with _ | v
      · have hjr : j ≠ r := by
          rintro rfl
          rw [hscan] at hsome
          cases hsome
        have : ∃ j, r + 1 ≤ j ∧ j < (r + 1) + f ∧ (scanWindow d w h cx cy j).isSome :=
          ⟨j, by omega, by omega, hsome⟩
        obtain ⟨v, hv, hloop⟩ := ih (r + 1) this
        exact ⟨v, hv, by simp [searchLoop, hscan, hloop]⟩
      · exact ⟨v, scanWindow_pos d w h cx cy r v hscan, by simp [searchLoop, hscan]⟩

/-- The window at radius `r` contains every in-bounds pixel once
`r ≥ cx + cy + w + h`. -/
theorem mem_scan_pixels (w h cx cy r x0 y0 : ℕ) (hx : x0 < w) (hy : y0 < h)
    (hr : cx + cy + w + h ≤ r) :
    (x0, y0) ∈ (List.range' (cx - r) (min (cx + r + 1) w - (cx - r))).flatMap
      (fun x => (List.range' (cy - r) (min (cy + r + 1) h - (cy - r))).map (fun y => (x, y))) := by
  have hminx : cx - r = 0 := by omega
  have hmaxx : min (cx + r + 1) w = w := by omega
  have hminy : cy - r = 0 := by omega
  have hmaxy : min (cy + r + 1) h = h := by omega
  rw [hminx, hmaxx, hminy, hmaxy]
  simp only [Nat.sub_zero, List.mem_flatMap, List.mem_map, List.mem_range'_1]
  exact ⟨x0, ⟨by omega, by omega⟩, y0, ⟨by omega, by omega⟩, rfl⟩

/-- On any frame holding a nonzero depth somewhere in bounds, the expanding
search terminates (with fuel `cx + cy + w + h` iterations of the source's
unbounded loop) and returns a strictly positive depth.  This is the half of
the sampling contract that the code does satisfy. -/
theorem get_depth_terminates_of_nonzero (d : ℕ → ℕ → ℕ) (w h cx cy x0 y0 : ℕ)
    (hx : x0 < w) (hy : y0 < h) (hd : 0 < d y0 x0) :
    ∃ v, 0 < v ∧ get_depth_for_color_pixel d w h cx cy (cx + cy + w + h) = some v := by
  set R := cx + cy + w + h with hR
  have hRpos : 1 ≤ R := by omega
  have hscan : (scanWindow d w h cx cy R).isSome := by
    simp only [scanWindow, Option.isSome_map', List.find?_isSome]
    exact ⟨(x0, y0), mem_scan_pixels w h cx cy R x0 y0 hx hy le_rfl, by simpa using hd⟩
  obtain ⟨v, hv, hloop⟩ := searchLoop_terminates d w h cx cy R 1 ⟨R, hRpos, by omega, hscan⟩
  exact ⟨v, hv, hloop⟩

end MoonExp
